import Mathlib

/-!
Verification of the ancestry-resolution subsystem of a vSphere metrics
exporter (collector/vc_vm.go). The embedding models:

  * `types.ManagedObjectReference` as `MOR` (type tag + opaque value),
  * `mo.ManagedEntity` as `ManagedEntity` (name + optional parent reference),
  * the global `ParentsCache` (a Go map guarded by a mutex) as an
    association list with Go map write semantics (assignment overwrites,
    lookup returns the most recent binding),
  * the remote property collector (`pc.RetrieveOne` fetching name and
    parent) as a function `MOR → Option ManagedEntity`, where `none`
    models a failed remote call,
  * the unbounded `for` loop of `getParents` as a fuel-indexed recursion
    `walkLoop`; running out of fuel (`WalkOutcome.outOfFuel`) corresponds
    to the Go loop not having terminated within the given number of
    iterations.

Remote call counts are threaded through so that the caching guarantees
(at most one walk per distinct parent reference per scrape) can be
stated exactly.
-/

/-- Embeds `types.ManagedObjectReference`: a type tag plus an opaque
identifier; two references are equal iff both fields match. -/
structure MOR where
  type : String
  value : String
deriving DecidableEq, Repr

/-- Embeds the `Parents` struct of vc_vm.go: resolved datacenter,
cluster and storage-pod names. -/
structure Parents where
  dc : String
  cluster : String
  spod : String
deriving DecidableEq, Repr

/-- Embeds the fragment of `mo.ManagedEntity` that the walk reads:
the entity name and its optional parent reference. -/
structure ManagedEntity where
  name : String
  parent : Option MOR
deriving DecidableEq, Repr

/-- Embeds the `cache map[types.ManagedObjectReference]Parents` field of
`ParentsCache` as an association list; the most recent binding for a key
shadows older ones, matching Go map assignment. -/
abbrev ParentsCache := List (MOR × Parents)

/-- Embeds `ParentsCache.Add`: Go map assignment `c.cache[mor] = val`,
which overwrites any existing binding for the key. -/
def ParentsCache.Add (c : ParentsCache) (mor : MOR) (val : Parents) : ParentsCache :=
  (mor, val) :: c

/-- Embeds `ParentsCache.Get`: Go map lookup `val, ok := c.cache[mor]`,
returning the most recent binding for the key if present. -/
def ParentsCache.Get (c : ParentsCache) (mor : MOR) : Option Parents :=
  match c with
  | [] => none
  | (k, v) :: rest => if k = mor then some v else ParentsCache.Get rest mor

/-- Embeds `ParentsCache.Flush`: replaces the map by a fresh empty map. -/
def ParentsCache.Flush (_c : ParentsCache) : ParentsCache := []

/-- The record `Parents{dc: "NONE", cluster: "NONE", spod: "NONE"}` that
`getParents` starts from and returns for root-level objects. -/
def defaultParents : Parents :=
  { dc := "NONE", cluster := "NONE", spod := "NONE" }

/-- The sentinel `Parents{"ERROR", "ERROR", "ERROR"}` returned when a
remote fetch fails mid-walk. -/
def errorParents : Parents :=
  { dc := "ERROR", cluster := "ERROR", spod := "ERROR" }

/-- Outcome of the `for` loop inside `getParents`: normal termination
with a record, a failed remote fetch, or fuel exhaustion (the Go loop
still running after the given number of iterations). -/
inductive WalkOutcome where
  | done : Parents → WalkOutcome
  | failed : WalkOutcome
  | outOfFuel : WalkOutcome
deriving DecidableEq, Repr

/-- The per-iteration record update of the walk: the two non-terminal
type checks of the loop body, in source order (`StoragePod` then
`ClusterComputeResource`). -/
def walkStepUpdate (curType : String) (name : String) (res : Parents) : Parents :=
  let r1 := if curType = "StoragePod" then { res with spod := name } else res
  if curType = "ClusterComputeResource" then { r1 with cluster := name } else r1

/-- Embeds the `for` loop of `getParents`: fetch the current node, abort
on fetch failure, update spod/cluster fields, stop at a `Datacenter`
node or when the node has no parent, otherwise step to the parent.
Returns the outcome together with the number of remote fetches issued. -/
def walkLoop (remote : MOR → Option ManagedEntity) :
    Nat → MOR → Parents → WalkOutcome × Nat
  | 0, _, _ => (WalkOutcome.outOfFuel, 0)
  | Nat.succ fuel, cur, res =>
    match remote cur with
    | none => (WalkOutcome.failed, 1)
    | some entity =>
      let res2 := walkStepUpdate cur.type entity.name res
      if cur.type = "Datacenter" then
        (WalkOutcome.done { res2 with dc := entity.name }, 1)
      else
        match entity.parent with
        | none => (WalkOutcome.done res2, 1)
        | some nxt =>
          let r := walkLoop remote fuel nxt res2
          (r.1, r.2 + 1)

/-- Result of one `getParents` call: the returned record, the cache
state after the call, and the number of remote fetches issued. -/
structure ResolveResult where
  res : Parents
  cache : ParentsCache
  calls : Nat
deriving DecidableEq, Repr

/-- Embeds `getParents`: return the default record for objects without a
parent, consult the cache for the parent reference, otherwise walk the
chain; on success insert the record keyed by the original parent
reference, on remote failure return the error sentinel without caching.
`none` means the loop did not terminate within `fuel` iterations. -/
def getParents (remote : MOR → Option ManagedEntity) (fuel : Nat)
    (c : ParentsCache) (me : ManagedEntity) : Option ResolveResult :=
  match me.parent with
  | none => some ⟨defaultParents, c, 0⟩
  | some par =>
    match ParentsCache.Get c par with
    | some cached => some ⟨cached, c, 0⟩
    | none =>
      match walkLoop remote fuel par defaultParents with
      | (WalkOutcome.outOfFuel, _) => none
      | (WalkOutcome.failed, n) => some ⟨errorParents, c, n⟩
      | (WalkOutcome.done r, n) => some ⟨r, ParentsCache.Add c par r, n⟩

/-- Embeds the fragment of `mo.VirtualMachine` that the pool/label logic
of `virtualMachineCollector.Update` reads: the ManagedEntity part and
the optional owning resource-pool reference. -/
structure VirtualMachine where
  entity : ManagedEntity
  resourcePool : Option MOR
deriving DecidableEq, Repr

/-- Embeds `getVMPool`: `nil` pool reference yields `nil` with no remote
call; otherwise one remote fetch of name and parent, returning `nil` on
failure and the fetched entity on success. The second component counts
remote fetches. -/
def getVMPool (remote : MOR → Option ManagedEntity) (vm : VirtualMachine) :
    Option ManagedEntity × Nat :=
  match vm.resourcePool with
  | none => (none, 0)
  | some rp =>
    match remote rp with
    | none => (none, 1)
    | some entity => (some entity, 1)

/-- Embeds the pool/ancestry fragment of `virtualMachineCollector.Update`
for one item: resolve the pool; if absent, resolve ancestry from the VM
itself with pool label "NONE", otherwise resolve ancestry from the pool
entity with the pool name as label. Returns the parents record, the pool
label and the cache state after the call. -/
def resolveVMLabels (remote : MOR → Option ManagedEntity) (fuel : Nat)
    (c : ParentsCache) (vm : VirtualMachine) :
    Option (Parents × String × ParentsCache) :=
  match (getVMPool remote vm).1 with
  | none =>
    match getParents remote fuel c vm.entity with
    | none => none
    | some r => some (r.res, "NONE", r.cache)
  | some pool =>
    match getParents remote fuel c pool with
    | none => none
    | some r => some (r.res, pool.name, r.cache)

/-! ## Concrete environments used by the claims -/

/-- Parent reference P1 of the concrete scenario: a transparent
`ResourcePool` node. -/
def morP1 : MOR := ⟨"ResourcePool", "p1"⟩

/-- Node P2 of the concrete scenario: a `ClusterComputeResource`. -/
def morP2 : MOR := ⟨"ClusterComputeResource", "p2"⟩

/-- Node P3 of the concrete scenario: the terminal `Datacenter`. -/
def morP3 : MOR := ⟨"Datacenter", "p3"⟩

/-- Remote environment of the concrete scenario: P1 (ResourcePool) →
P2 (ClusterComputeResource "ClusterX") → P3 (Datacenter "DC1", no
further parent). -/
def remoteScenario : MOR → Option ManagedEntity := fun m =>
  if m = morP1 then some ⟨"PoolName", some morP2⟩
  else if m = morP2 then some ⟨"ClusterX", some morP3⟩
  else if m = morP3 then some ⟨"DC1", none⟩
  else none

/-- Object C of the concrete scenario, with parent P1. -/
def objC : ManagedEntity := ⟨"C", some morP1⟩

/-- Object D of the concrete scenario, also with parent P1. -/
def objD : ManagedEntity := ⟨"D", some morP1⟩

/-- The record the concrete scenario resolves to. -/
def scenarioRec : Parents := { dc := "DC1", cluster := "ClusterX", spod := "NONE" }

/-- A six-node parent chain with variable type tags at positions 1, 3
and 5 and a `StoragePod`, a `ClusterComputeResource` and a terminal
`Datacenter` at positions 2, 4 and 6; node names are the six string
parameters. -/
def chain6 (t2 t3 : String) (a b c d e f : String) : MOR → Option ManagedEntity :=
  fun m =>
    if m.value = "x1" then some ⟨a, some ⟨"StoragePod", "x2"⟩⟩
    else if m.value = "x2" then some ⟨b, some ⟨t2, "x3"⟩⟩
    else if m.value = "x3" then some ⟨c, some ⟨"ClusterComputeResource", "x4"⟩⟩
    else if m.value = "x4" then some ⟨d, some ⟨t3, "x5"⟩⟩
    else if m.value = "x5" then some ⟨e, some ⟨"Datacenter", "x6"⟩⟩
    else if m.value = "x6" then some ⟨f, none⟩
    else none

/-- First node of a two-node parent cycle. -/
def morCycA : MOR := ⟨"Folder", "a"⟩

/-- Second node of a two-node parent cycle. -/
def morCycB : MOR := ⟨"Folder", "b"⟩

/-- Remote environment containing a parent cycle A → B → A of
transparent `Folder` nodes, with no `Datacenter` on the cycle. -/
def cycleRemote : MOR → Option ManagedEntity := fun m =>
  if m = morCycA then some ⟨"A", some morCycB⟩
  else if m = morCycB then some ⟨"B", some morCycA⟩
  else none

/-- Bounded reachability of a walk terminal: within `n` fetches starting
at `cur`, the chain reaches a failed fetch, a `Datacenter` node, or a
node with no parent. Finite acyclic parent chains satisfy this for some
`n`. -/
def terminalWithin (remote : MOR → Option ManagedEntity) : Nat → MOR → Bool
  | 0, _ => false
  | Nat.succ n, cur =>
    match remote cur with
    | none => true
    | some entity =>
      if cur.type = "Datacenter" then true
      else
        match entity.parent with
        | none => true
        | some nxt => terminalWithin remote n nxt

/-! ## Helper lemmas -/

/-- Lookup after an overwriting add finds the added record. -/
theorem ParentsCache.Get_Add_self (c : ParentsCache) (k : MOR) (v : Parents) :
    ParentsCache.Get (ParentsCache.Add c k v) k = some v := by
  simp [ParentsCache.Add, ParentsCache.Get]

/-- Step lemma: a failed fetch at the current node ends the walk with
the failed outcome after exactly one remote call, whatever the record
accumulated so far. -/
theorem walkLoop_step_fail (remote : MOR → Option ManagedEntity) (fuel : Nat)
    (cur : MOR) (res : Parents) (h : remote cur = none) :
    walkLoop remote (fuel + 1) cur res = (WalkOutcome.failed, 1) := by
  simp [walkLoop, h]

/-- Step lemma: at a `Datacenter` node the walk records the fetched name
into the dc field and stops after exactly one remote call, regardless of
whether the node has a further parent. -/
theorem walkLoop_step_dc (remote : MOR → Option ManagedEntity) (fuel : Nat)
    (cur : MOR) (entity : ManagedEntity) (res : Parents)
    (h : remote cur = some entity) (hty : cur.type = "Datacenter") :
    walkLoop remote (fuel + 1) cur res =
      (WalkOutcome.done { res with dc := entity.name }, 1) := by
  have h1 : cur.type ≠ "StoragePod" := by rw [hty]; decide
  have h2 : cur.type ≠ "ClusterComputeResource" := by rw [hty]; decide
  simp [walkLoop, h, hty, walkStepUpdate, h1, h2]

/-- Step lemma: at a non-`Datacenter` node with no further parent the
walk stops after exactly one remote call with the updated record. -/
theorem walkLoop_step_top (remote : MOR → Option ManagedEntity) (fuel : Nat)
    (cur : MOR) (entity : ManagedEntity) (res : Parents)
    (h : remote cur = some entity) (hty : cur.type ≠ "Datacenter")
    (hp : entity.parent = none) :
    walkLoop remote (fuel + 1) cur res =
      (WalkOutcome.done (walkStepUpdate cur.type entity.name res), 1) := by
  simp [walkLoop, h, hty, hp]

/-- Step lemma: at a non-`Datacenter` node with a parent the walk
updates the record and continues at the parent, adding one remote call. -/
theorem walkLoop_step_cont (remote : MOR → Option ManagedEntity) (fuel : Nat)
    (cur : MOR) (entity : ManagedEntity) (res : Parents) (nxt : MOR)
    (h : remote cur = some entity) (hty : cur.type ≠ "Datacenter")
    (hp : entity.parent = some nxt) :
    walkLoop remote (fuel + 1) cur res =
      ((walkLoop remote fuel nxt (walkStepUpdate cur.type entity.name res)).1,
       (walkLoop remote fuel nxt (walkStepUpdate cur.type entity.name res)).2 + 1) := by
  simp [walkLoop, h, hty, hp]

/-- On the two-node cycle, the walk exhausts any amount of fuel from
either node, whatever the record accumulated so far. -/
theorem cycle_walk_outOfFuel (fuel : Nat) :
    ∀ res : Parents,
      (walkLoop cycleRemote fuel morCycA res).1 = WalkOutcome.outOfFuel ∧
      (walkLoop cycleRemote fuel morCycB res).1 = WalkOutcome.outOfFuel := by
  induction fuel with
  | zero => intro res; exact ⟨rfl, rfl⟩
  | succ n ih =>
    intro res
    have hA : cycleRemote morCycA = some ⟨"A", some morCycB⟩ := by decide
    have hB : cycleRemote morCycB = some ⟨"B", some morCycA⟩ := by decide
    have htyA : morCycA.type ≠ "Datacenter" := by decide
    have htyB : morCycB.type ≠ "Datacenter" := by decide
    constructor
    · rw [walkLoop_step_cont cycleRemote n morCycA ⟨"A", some morCycB⟩ res morCycB hA htyA rfl]
      exact (ih _).2
    · rw [walkLoop_step_cont cycleRemote n morCycB ⟨"B", some morCycA⟩ res morCycA hB htyB rfl]
      exact (ih _).1

/-- Environment in which a `Datacenter` node itself has a further
parent, used to check that the walk still stops there. -/
def remoteDCparent : MOR → Option ManagedEntity := fun m =>
  if m = ⟨"Datacenter", "d1"⟩ then some ⟨"DCX", some ⟨"Folder", "root"⟩⟩
  else none

/-- First node of an environment that fails mid-walk: a
`ClusterComputeResource` whose parent fetch will fail. -/
def morF1 : MOR := ⟨"ClusterComputeResource", "f1"⟩

/-- Second node of the failing environment: its fetch fails. -/
def morF2 : MOR := ⟨"Folder", "f2"⟩

/-- Environment whose walk populates the cluster field at the first
step and then hits a failed fetch at the second step. -/
def remoteFailMid : MOR → Option ManagedEntity := fun m =>
  if m = morF1 then some ⟨"Clus", some morF2⟩
  else none

/-! ## Claim theorems -/

/-- C1: for every object whose declared immediate parent reference is
absent, `getParents` returns the default all-"NONE" record with zero
remote fetches, and the cache it returns is the input cache unchanged,
for every cache state — so the cache is neither consulted nor
modified. -/
theorem getParents_no_parent (remote : MOR → Option ManagedEntity)
    (fuel : Nat) (c : ParentsCache) (me : ManagedEntity)
    (h : me.parent = none) :
    getParents remote fuel c me = some ⟨defaultParents, c, 0⟩ := by
  simp [getParents, h]

/-- Witness for C1: a concrete root-level object resolves to the default
record with zero remote calls and an unchanged cache. -/
theorem getParents_no_parent_witness :
    getParents remoteScenario 10 [] ⟨"B", none⟩ = some ⟨defaultParents, [], 0⟩ :=
  getParents_no_parent remoteScenario 10 [] ⟨"B", none⟩ rfl

/-- C3: when the current node of a walk has type tag "Datacenter", the
walk records the fetched name into the dc field and stops after exactly
that one fetch — no further remote fetch, no ancestor visited — even
when the entity has a further parent (the parent field of `entity` is
unconstrained). -/
theorem walk_datacenter_stops (remote : MOR → Option ManagedEntity)
    (fuel : Nat) (cur : MOR) (entity : ManagedEntity) (res : Parents)
    (h : remote cur = some entity) (hty : cur.type = "Datacenter") :
    walkLoop remote (fuel + 1) cur res =
      (WalkOutcome.done { res with dc := entity.name }, 1) :=
  walkLoop_step_dc remote fuel cur entity res h hty

/-- Witness for C3: at a concrete `Datacenter` node that itself has a
parent, the walk stops with one call and records the name. -/
theorem walk_datacenter_stops_witness :
    walkLoop remoteDCparent (4 + 1) ⟨"Datacenter", "d1"⟩ defaultParents =
      (WalkOutcome.done { defaultParents with dc := "DCX" }, 1) :=
  walk_datacenter_stops remoteDCparent 4 ⟨"Datacenter", "d1"⟩
    ⟨"DCX", some ⟨"Folder", "root"⟩⟩ defaultParents (by decide) rfl

/-- C4: when the walk for a cache-miss parent reference fails at some
step, `getParents` returns exactly the "ERROR","ERROR","ERROR" sentinel
(whatever fields the walk had populated are discarded, since the failed
outcome carries no record) together with the input cache unchanged, and
the cache entry for that parent reference remains absent. -/
theorem getParents_error_not_cached (remote : MOR → Option ManagedEntity)
    (fuel : Nat) (c : ParentsCache) (me : ManagedEntity) (par : MOR) (n : Nat)
    (hp : me.parent = some par)
    (hc : ParentsCache.Get c par = none)
    (hw : walkLoop remote fuel par defaultParents = (WalkOutcome.failed, n)) :
    getParents remote fuel c me = some ⟨errorParents, c, n⟩ ∧
    ParentsCache.Get c par = none := by
  refine ⟨?_, hc⟩
  simp [getParents, hp, hc, hw]

/-- Witness for C4: a concrete walk that populates the cluster field at
step one and fails at step two yields the error sentinel, and the cache
entry stays absent. -/
theorem getParents_error_not_cached_witness :
    getParents remoteFailMid 10 [] ⟨"V", some morF1⟩ = some ⟨errorParents, [], 2⟩ ∧
    ParentsCache.Get [] morF1 = none :=
  getParents_error_not_cached remoteFailMid 10 [] ⟨"V", some morF1⟩ morF1 2
    rfl rfl (by decide)

/-- C5 counterexample: `ParentsCache.Add` on an existing key is not a
no-op — the previously stored record is replaced. Adding `scenarioRec`
under a key already bound to `defaultParents` makes lookups return
`scenarioRec`, not the original record. -/
theorem cacheAdd_not_noop_cex :
    ParentsCache.Get
        (ParentsCache.Add (ParentsCache.Add [] morP1 defaultParents) morP1 scenarioRec)
        morP1 = some scenarioRec ∧
    some scenarioRec ≠ some defaultParents := by
  decide

/-- C5 amended: `ParentsCache.Add` stores the record unconditionally,
overwriting any previously stored record for the key; lookups of other
keys are unaffected. -/
theorem cacheAdd_overwrites (c : ParentsCache) (k : MOR) (v : Parents) (k2 : MOR) :
    ParentsCache.Get (ParentsCache.Add c k v) k = some v ∧
    (k2 ≠ k → ParentsCache.Get (ParentsCache.Add c k v) k2 = ParentsCache.Get c k2) := by
  constructor
  · simp [ParentsCache.Add, ParentsCache.Get]
  · intro hne
    simp [ParentsCache.Add, ParentsCache.Get, Ne.symm hne]

/-- Witness for amended C5 at concrete keys and records. -/
theorem cacheAdd_overwrites_witness :
    ParentsCache.Get (ParentsCache.Add [] morP1 scenarioRec) morP1 = some scenarioRec ∧
    ParentsCache.Get (ParentsCache.Add [] morP1 scenarioRec) morP2 = ParentsCache.Get [] morP2 :=
  ⟨(cacheAdd_overwrites [] morP1 scenarioRec morP2).1,
   (cacheAdd_overwrites [] morP1 scenarioRec morP2).2 (by decide)⟩

/-- C8: `getVMPool` returns no entity and issues zero remote fetches
when the VM declares no resource pool; returns no entity after exactly
one fetch when the fetch fails; and returns the fetched entity after
exactly one fetch otherwise. It takes no cache state at all and is a
total function, so it never touches the ancestry cache and never
propagates an error. -/
theorem getVMPool_spec (remote : MOR → Option ManagedEntity) (vm : VirtualMachine) :
    (vm.resourcePool = none → getVMPool remote vm = (none, 0)) ∧
    (∀ rp, vm.resourcePool = some rp → remote rp = none →
      getVMPool remote vm = (none, 1)) ∧
    (∀ rp e, vm.resourcePool = some rp → remote rp = some e →
      getVMPool remote vm = (some e, 1)) := by
  refine ⟨?_, ?_, ?_⟩ <;> intros <;> simp [getVMPool, *]

/-- Witness for C8: the three branches at concrete inputs — no pool
reference, a failing fetch, and a successful fetch. -/
theorem getVMPool_spec_witness :
    getVMPool remoteScenario ⟨⟨"V", none⟩, none⟩ = (none, 0) ∧
    getVMPool remoteScenario ⟨⟨"V", none⟩, some ⟨"ResourcePool", "zz"⟩⟩ = (none, 1) ∧
    getVMPool remoteScenario ⟨⟨"V", none⟩, some morP1⟩ =
      (some ⟨"PoolName", some morP2⟩, 1) :=
  ⟨(getVMPool_spec remoteScenario ⟨⟨"V", none⟩, none⟩).1 rfl,
   (getVMPool_spec remoteScenario ⟨⟨"V", none⟩, some ⟨"ResourcePool", "zz"⟩⟩).2.1
     ⟨"ResourcePool", "zz"⟩ rfl (by decide),
   (getVMPool_spec remoteScenario ⟨⟨"V", none⟩, some morP1⟩).2.2
     morP1 ⟨"PoolName", some morP2⟩ rfl (by decide)⟩

/-- Transparent step: a type tag other than the two informative
non-terminal tags leaves the record unchanged. -/
theorem walkStepUpdate_transparent (t nm : String) (res : Parents)
    (hs : t ≠ "StoragePod") (hc : t ≠ "ClusterComputeResource") :
    walkStepUpdate t nm res = res := by
  simp [walkStepUpdate, hs, hc]

/-- A `StoragePod` step records the fetched name into the spod field. -/
theorem walkStepUpdate_spod (nm : String) (res : Parents) :
    walkStepUpdate "StoragePod" nm res = { res with spod := nm } := by
  simp [walkStepUpdate]

/-- A `ClusterComputeResource` step records the fetched name into the
cluster field. -/
theorem walkStepUpdate_cluster (nm : String) (res : Parents) :
    walkStepUpdate "ClusterComputeResource" nm res = { res with cluster := nm } := by
  simp [walkStepUpdate]

/-- Composition form of the continue step: a known result of the rest
of the walk extends by one remote call. -/
theorem walkLoop_cont_eq (remote : MOR → Option ManagedEntity) (fuel : Nat)
    (cur : MOR) (entity : ManagedEntity) (res : Parents) (nxt : MOR)
    (o : WalkOutcome) (n : Nat)
    (h : remote cur = some entity) (hty : cur.type ≠ "Datacenter")
    (hp : entity.parent = some nxt)
    (hrec : walkLoop remote fuel nxt (walkStepUpdate cur.type entity.name res) = (o, n)) :
    walkLoop remote (fuel + 1) cur res = (o, n + 1) := by
  rw [walkLoop_step_cont remote fuel cur entity res nxt h hty hp, hrec]

/-- C2: from a cache state with no entry for the shared parent
reference, the first `getParents` call walks the chain (k remote
fetches) and inserts the resulting record keyed by the original parent
reference; a second call for any object with the same parent reference
then performs zero remote fetches and returns the identical record,
leaving the cache unchanged. -/
theorem getParents_second_call_cache_hit (remote : MOR → Option ManagedEntity)
    (fuel : Nat) (c : ParentsCache) (me me2 : ManagedEntity) (p : MOR)
    (r : Parents) (k : Nat)
    (h1 : me.parent = some p) (h2 : me2.parent = some p)
    (h3 : ParentsCache.Get c p = none)
    (h4 : walkLoop remote fuel p defaultParents = (WalkOutcome.done r, k)) :
    getParents remote fuel c me = some ⟨r, ParentsCache.Add c p r, k⟩ ∧
    getParents remote fuel (ParentsCache.Add c p r) me2 =
      some ⟨r, ParentsCache.Add c p r, 0⟩ := by
  constructor
  · simp [getParents, h1, h3, h4]
  · simp [getParents, h2, ParentsCache.Get_Add_self]

/-- Witness for C2: in the concrete scenario, resolving C walks the
chain with 3 fetches and caches the record under P1; resolving D then
issues zero fetches and returns the identical record. -/
theorem getParents_second_call_cache_hit_witness :
    getParents remoteScenario 10 [] objC =
      some ⟨scenarioRec, ParentsCache.Add [] morP1 scenarioRec, 3⟩ ∧
    getParents remoteScenario 10 (ParentsCache.Add [] morP1 scenarioRec) objD =
      some ⟨scenarioRec, ParentsCache.Add [] morP1 scenarioRec, 0⟩ :=
  getParents_second_call_cache_hit remoteScenario 10 [] objC objD morP1
    scenarioRec 3 rfl rfl rfl (by decide)

/-- C6: over a six-node chain holding a `StoragePod` (name `b`), a
`ClusterComputeResource` (name `d`) and a terminal `Datacenter`
(name `f`), interleaved with nodes of arbitrary other type tags, the
walk returns the record with dc = f, cluster = d and spod = b: both
informative fields are populated independently and every other type tag
is skipped transparently. -/
theorem walk_cluster_and_spod_both (t1 t2 t3 a b c d e f : String)
    (h1s : t1 ≠ "StoragePod") (h1c : t1 ≠ "ClusterComputeResource") (h1d : t1 ≠ "Datacenter")
    (h2s : t2 ≠ "StoragePod") (h2c : t2 ≠ "ClusterComputeResource") (h2d : t2 ≠ "Datacenter")
    (h3s : t3 ≠ "StoragePod") (h3c : t3 ≠ "ClusterComputeResource") (h3d : t3 ≠ "Datacenter") :
    walkLoop (chain6 t2 t3 a b c d e f) 6 ⟨t1, "x1"⟩ defaultParents =
      (WalkOutcome.done ⟨f, d, b⟩, 6) := by
  have s6 : walkLoop (chain6 t2 t3 a b c d e f) 1 ⟨"Datacenter", "x6"⟩ ⟨"NONE", d, b⟩ =
      (WalkOutcome.done ⟨f, d, b⟩, 1) :=
    walkLoop_step_dc _ 0 _ ⟨f, none⟩ _ (by simp [chain6]) rfl
  have s5 : walkLoop (chain6 t2 t3 a b c d e f) 2 ⟨t3, "x5"⟩ ⟨"NONE", d, b⟩ =
      (WalkOutcome.done ⟨f, d, b⟩, 2) :=
    walkLoop_cont_eq _ 1 _ ⟨e, some ⟨"Datacenter", "x6"⟩⟩ _ ⟨"Datacenter", "x6"⟩ _ 1
      (by simp [chain6]) h3d rfl
      (by rw [walkStepUpdate_transparent _ _ _ h3s h3c]; exact s6)
  have s4 : walkLoop (chain6 t2 t3 a b c d e f) 3 ⟨"ClusterComputeResource", "x4"⟩
      ⟨"NONE", "NONE", b⟩ = (WalkOutcome.done ⟨f, d, b⟩, 3) :=
    walkLoop_cont_eq _ 2 _ ⟨d, some ⟨t3, "x5"⟩⟩ _ ⟨t3, "x5"⟩ _ 2
      (by simp [chain6]) (by decide) rfl
      (by rw [walkStepUpdate_cluster]; exact s5)
  have s3 : walkLoop (chain6 t2 t3 a b c d e f) 4 ⟨t2, "x3"⟩ ⟨"NONE", "NONE", b⟩ =
      (WalkOutcome.done ⟨f, d, b⟩, 4) :=
    walkLoop_cont_eq _ 3 _ ⟨c, some ⟨"ClusterComputeResource", "x4"⟩⟩ _
      ⟨"ClusterComputeResource", "x4"⟩ _ 3
      (by simp [chain6]) h2d rfl
      (by rw [walkStepUpdate_transparent _ _ _ h2s h2c]; exact s4)
  have s2 : walkLoop (chain6 t2 t3 a b c d e f) 5 ⟨"StoragePod", "x2"⟩ defaultParents =
      (WalkOutcome.done ⟨f, d, b⟩, 5) :=
    walkLoop_cont_eq _ 4 _ ⟨b, some ⟨t2, "x3"⟩⟩ _ ⟨t2, "x3"⟩ _ 4
      (by simp [chain6]) (by decide) rfl
      (by rw [walkStepUpdate_spod]; exact s3)
  exact
    walkLoop_cont_eq _ 5 _ ⟨a, some ⟨"StoragePod", "x2"⟩⟩ _ ⟨"StoragePod", "x2"⟩ _ 5
      (by simp [chain6]) h1d rfl
      (by rw [walkStepUpdate_transparent _ _ _ h1s h1c]; exact s2)

/-- Witness for C6 at concrete transparent type tags and names. -/
theorem walk_cluster_and_spod_both_witness :
    walkLoop (chain6 "Folder" "ResourcePool" "n1" "n2" "n3" "n4" "n5" "n6") 6
      ⟨"ResourcePool", "x1"⟩ defaultParents =
      (WalkOutcome.done ⟨"n6", "n4", "n2"⟩, 6) :=
  walk_cluster_and_spod_both "ResourcePool" "Folder" "ResourcePool"
    "n1" "n2" "n3" "n4" "n5" "n6"
    (by decide) (by decide) (by decide) (by decide) (by decide) (by decide)
    (by decide) (by decide) (by decide)

/-- C7 counterexample: in the concrete scenario, resolving C issues 3
remote fetches (one for each of P1, P2, P3) and resolving D issues 0,
so the total is 3 and the claimed total of exactly 2 is false. -/
theorem scenario_two_calls_cex :
    getParents remoteScenario 10 [] objC =
      some ⟨⟨"DC1", "ClusterX", "NONE"⟩,
        ParentsCache.Add [] morP1 ⟨"DC1", "ClusterX", "NONE"⟩, 3⟩ ∧
    getParents remoteScenario 10 (ParentsCache.Add [] morP1 ⟨"DC1", "ClusterX", "NONE"⟩) objD =
      some ⟨⟨"DC1", "ClusterX", "NONE"⟩,
        ParentsCache.Add [] morP1 ⟨"DC1", "ClusterX", "NONE"⟩, 0⟩ ∧
    3 + 0 ≠ 2 := by
  decide

/-- C7 amended: in the concrete scenario, resolving C then D issues
exactly 3 remote fetch calls total (one per node P1, P2, P3; the second
resolution is a cache hit with 0 fetches), and each resolution returns
the record with dc = "DC1", cluster = "ClusterX", spod = "NONE". -/
theorem scenario_three_calls_total :
    getParents remoteScenario 10 [] objC =
      some ⟨⟨"DC1", "ClusterX", "NONE"⟩,
        ParentsCache.Add [] morP1 ⟨"DC1", "ClusterX", "NONE"⟩, 3⟩ ∧
    getParents remoteScenario 10 (ParentsCache.Add [] morP1 ⟨"DC1", "ClusterX", "NONE"⟩) objD =
      some ⟨⟨"DC1", "ClusterX", "NONE"⟩,
        ParentsCache.Add [] morP1 ⟨"DC1", "ClusterX", "NONE"⟩, 0⟩ ∧
    3 + 0 = 3 := by
  decide

/-- C9: in the VM collector, when the pool lookup succeeds the ancestry
is resolved from the pool entity (walking upward from the pool's parent)
and the pool label is the pool name; when the pool is absent or its
lookup fails, the ancestry is resolved from the VM's own ManagedEntity
and the pool label is "NONE". -/
theorem update_resolves_pool_ancestry (remote : MOR → Option ManagedEntity)
    (fuel : Nat) (c : ParentsCache) (vm : VirtualMachine) :
    (∀ pool : ManagedEntity, (getVMPool remote vm).1 = some pool →
      resolveVMLabels remote fuel c vm =
        (getParents remote fuel c pool).map (fun r => (r.res, pool.name, r.cache))) ∧
    ((getVMPool remote vm).1 = none →
      resolveVMLabels remote fuel c vm =
        (getParents remote fuel c vm.entity).map (fun r => (r.res, "NONE", r.cache))) := by
  constructor
  · intro pool hp
    unfold resolveVMLabels
    rw [hp]
    cases h : getParents remote fuel c pool <;> simp [h]
  · intro hp
    unfold resolveVMLabels
    rw [hp]
    cases h : getParents remote fuel c vm.entity <;> simp [h]

/-- Witness for C9: a VM whose pool resolves to the P1 entity has its
ancestry computed from that entity, and a VM without a pool reference
has it computed from its own entity with the "NONE" pool label. -/
theorem update_resolves_pool_ancestry_witness :
    resolveVMLabels remoteScenario 10 [] ⟨⟨"V", some morP1⟩, some morP1⟩ =
      (getParents remoteScenario 10 [] ⟨"PoolName", some morP2⟩).map
        (fun r => (r.res, "PoolName", r.cache)) ∧
    resolveVMLabels remoteScenario 10 [] ⟨⟨"W", none⟩, none⟩ =
      (getParents remoteScenario 10 [] ⟨"W", none⟩).map
        (fun r => (r.res, "NONE", r.cache)) :=
  ⟨(update_resolves_pool_ancestry remoteScenario 10 [] ⟨⟨"V", some morP1⟩, some morP1⟩).1
      ⟨"PoolName", some morP2⟩ (by decide),
   (update_resolves_pool_ancestry remoteScenario 10 [] ⟨⟨"W", none⟩, none⟩).2 rfl⟩

/-- C10: the walk has no cycle detection. Whenever the parent chain
reaches a terminal within n steps (a failed fetch, a `Datacenter` node,
or a node with no parent — true of every finite acyclic chain), the walk
run with that much fuel does not exhaust it; but on the concrete
two-node parent cycle with no `Datacenter`, the walk exhausts every
amount of fuel, i.e. the source loop never terminates. -/
theorem walk_termination_characterization :
    (∀ (remote : MOR → Option ManagedEntity) (n : Nat) (cur : MOR),
      terminalWithin remote n cur = true →
      ∀ res : Parents, (walkLoop remote n cur res).1 ≠ WalkOutcome.outOfFuel) ∧
    (∀ (fuel : Nat) (res : Parents),
      (walkLoop cycleRemote fuel morCycA res).1 = WalkOutcome.outOfFuel) := by
  constructor
  · intro remote n
    induction n with
    | zero =>
      intro cur h res
      simp [terminalWithin] at h
    | succ m ih =>
      intro cur h res
      unfold terminalWithin at h
      cases hr : remote cur with
      | none =>
        rw [walkLoop_step_fail remote m cur res hr]
        simp
      | some entity =>
        simp only [hr] at h
        by_cases hd : cur.type = "Datacenter"
        · rw [walkLoop_step_dc remote m cur entity res hr hd]
          simp
        · simp only [if_neg hd] at h
          cases hp : entity.parent with
          | none =>
            rw [walkLoop_step_top remote m cur entity res hr hd hp]
            simp
          | some nxt =>
            simp only [hp] at h
            rw [walkLoop_step_cont remote m cur entity res nxt hr hd hp]
            exact ih nxt h _
  · intro fuel res
    exact (cycle_walk_outOfFuel fuel res).1

/-- Witness for C10: the concrete three-node chain terminates within
its length, while the concrete cycle exhausts a large fuel budget. -/
theorem walk_termination_characterization_witness :
    (walkLoop remoteScenario 3 morP1 defaultParents).1 ≠ WalkOutcome.outOfFuel ∧
    (walkLoop cycleRemote 50 morCycA defaultParents).1 = WalkOutcome.outOfFuel :=
  ⟨walk_termination_characterization.1 remoteScenario 3 morP1 (by decide) defaultParents,
   walk_termination_characterization.2 50 defaultParents⟩
